import Mathlib

/-!
Shallow embedding of the `MockTranscriptionProvider` fixture from
`demo_app.py` of cjm-transcript-source-select, together with proofs about
its two accessor operations (`query_records`, `get_source_block`), its
construction (`__post_init__`, `_generate_sample_data`) and its provider
interface.

Modelling choices, each taken from the source:
* a stored record (a Python `Dict[str, Any]`) is a `RawRecord` structure;
  `job_id` is a mandatory field because every access in the source is the
  unchecked subscript `rec["job_id"]`, while `audio_path`, `text`,
  `metadata` and `created_at` are `Option`s because the source reads them
  with `rec.get(key, default)`;
* metadata values (chapter numbers and durations such as `45.2`) are a
  small inductive `MetaVal`; a duration `a.b` is `MetaVal.decimal a b`;
* `datetime.now()` is a parameter `now : Int` counting seconds, and
  `timedelta` subtraction is integer subtraction (1 day = 86400 s);
  `isoformat` is abstracted to the decimal rendering of that integer —
  no claim inspects the text of a timestamp;
* Python's slice `l[:limit]` is `pySliceTo`, including its negative-index
  behaviour;
* the two accessor methods do not assign to `self`, so their state-passing
  embeddings `query_records_run` / `get_source_block_run` return the
  provider unchanged alongside the result.
-/

/-- Metadata value: a chapter number or a duration with one decimal digit. -/
inductive MetaVal where
  | natural : Nat → MetaVal
  | decimal : Nat → Nat → MetaVal
deriving DecidableEq, Repr

/-- A metadata dict, e.g. `{"chapter": 1, "duration": 45.2}`. -/
abbrev Metadata := List (String × MetaVal)

/-- A stored record, the shape of the dicts in `_records`. -/
structure RawRecord where
  job_id : String
  audio_path : Option String := none
  text : Option String := none
  metadata : Option Metadata := none
  created_at : Option String := none
deriving DecidableEq, Repr

/-- Abstraction of `datetime.fromtimestamp(t).isoformat()`: the timestamp
value rendered as a decimal string. No claim inspects its contents. -/
def isoformat (t : Int) : String := toString t

/-- `SourceRecord` from `cjm_source_provider.models`, as constructed at
`demo_app.py` lines 61-68: all five data fields are strings or a metadata
dict (the `rec.get` calls there supply string / dict defaults). -/
structure SourceRecord where
  record_id : String
  media_path : String
  text : String
  metadata : Metadata
  created_at : String
  provider_id : String
deriving DecidableEq, Repr

/-- `SourceBlock` from `cjm_source_provider.models`, as constructed at
`demo_app.py` lines 77-83: `media_path` comes from `rec.get("audio_path")`
with no default, hence an `Option`. -/
structure SourceBlock where
  id : String
  provider_id : String
  text : String
  media_path : Option String
  metadata : Metadata
deriving DecidableEq, Repr

/-- Python's `l[:limit]` for an `int` limit: a non-negative limit keeps the
first `limit` elements; a negative limit drops the last `|limit|` elements
(and yields `[]` when `|limit| ≥ l.length`). -/
def pySliceTo (l : List α) (limit : Int) : List α :=
  if 0 ≤ limit then l.take limit.toNat
  else l.take (l.length - limit.natAbs)

/-- The mock provider dataclass (`demo_app.py` lines 27-33) with its three
fields and their dataclass defaults. -/
structure MockTranscriptionProvider where
  _id : String := "mock:demo-transcriptions"
  _name : String := "Demo Transcriptions"
  _records : List RawRecord := []
deriving DecidableEq, Repr

/-- Conversion applied to each sliced record inside `query_records`
(`demo_app.py` lines 61-68): field-by-field construction of a
`SourceRecord`, with `rec.get` defaults `""`, `""`, `{}`, `""`. -/
def toSourceRecord (pid : String) (r : RawRecord) : SourceRecord :=
  { record_id := r.job_id
    media_path := r.audio_path.getD ""
    text := r.text.getD ""
    metadata := r.metadata.getD []
    created_at := r.created_at.getD ""
    provider_id := pid }

/-- The `SourceBlock` built at `demo_app.py` lines 77-83 from a matching
record. -/
def mkSourceBlock (pid : String) (r : RawRecord) : SourceBlock :=
  { id := r.job_id
    provider_id := pid
    text := r.text.getD ""
    media_path := r.audio_path
    metadata := r.metadata.getD [] }

/-- The five sample records of `_generate_sample_data`
(`demo_app.py` lines 86-148), with `datetime.now()` passed in as `now`. -/
def MockTranscriptionProvider._generate_sample_data (now : Int) : List RawRecord :=
  [ { job_id := "job_demo_001"
      audio_path := some "/audio/sun_tzu_ch1.mp3"
      text := some ("Laying Plans. Sun Tzu said: The art of war is of vital importance to the State. It is a matter of life and death, a road either to safety or to ruin. Hence it is a subject of inquiry which can on no account be neglected.")
      created_at := some (isoformat (now - 86400))
      metadata := some [("chapter", MetaVal.natural 1), ("duration", MetaVal.decimal 45 2)] },
    { job_id := "job_demo_002"
      audio_path := some "/audio/sun_tzu_ch1.mp3"
      text := some ("The art of war, then, is governed by five constant factors, to be taken into account in one\x27s deliberations, when seeking to determine the conditions obtaining in the field.")
      created_at := some (isoformat (now - 90000))
      metadata := some [("chapter", MetaVal.natural 1), ("duration", MetaVal.decimal 32 1)] },
    { job_id := "job_demo_003"
      audio_path := some "/audio/sun_tzu_ch2.mp3"
      text := some ("Waging War. Sun Tzu said: In the operations of war, where there are in the field a thousand swift chariots, as many heavy chariots, and a hundred thousand mail-clad soldiers, with provisions enough to carry them a thousand li, the expenditure at home and at the front will reach the total of a thousand ounces of silver per day.")
      created_at := some (isoformat (now - 172800))
      metadata := some [("chapter", MetaVal.natural 2), ("duration", MetaVal.decimal 58 7)] },
    { job_id := "job_demo_004"
      audio_path := some "/audio/sun_tzu_ch3.mp3"
      text := some ("Attack by Stratagem. Sun Tzu said: In the practical art of war, the best thing of all is to take the enemy\x27s country whole and intact; to shatter and destroy it is not so good.")
      created_at := some (isoformat (now - 259200))
      metadata := some [("chapter", MetaVal.natural 3), ("duration", MetaVal.decimal 41 5)] },
    { job_id := "job_demo_005"
      audio_path := some "/audio/sun_tzu_ch3.mp3"
      text := some ("So, too, it is better to recapture an army entire than to destroy it, to capture a regiment, a detachment or a company entire than to destroy them.")
      created_at := some (isoformat (now - 266400))
      metadata := some [("chapter", MetaVal.natural 3), ("duration", MetaVal.decimal 28 3)] } ]

/-- `__post_init__` (`demo_app.py` lines 35-38): when `_records` is empty
(Python truthiness of a list) it is replaced by the generated samples. -/
def MockTranscriptionProvider.post_init (p : MockTranscriptionProvider) (now : Int) :
    MockTranscriptionProvider :=
  if p._records.isEmpty then
    { p with _records := MockTranscriptionProvider._generate_sample_data now }
  else p

/-- `provider_id` property (`demo_app.py` lines 40-42). -/
def MockTranscriptionProvider.provider_id (p : MockTranscriptionProvider) : String := p._id

/-- `provider_name` property (`demo_app.py` lines 44-46). -/
def MockTranscriptionProvider.provider_name (p : MockTranscriptionProvider) : String := p._name

/-- `is_available` (`demo_app.py` lines 52-53). -/
def MockTranscriptionProvider.is_available (_p : MockTranscriptionProvider) : Bool := true

/-- `query_records` (`demo_app.py` lines 55-69): slice `_records[:limit]`
and convert each record; the Python default for `limit` is 100. -/
def MockTranscriptionProvider.query_records (p : MockTranscriptionProvider)
    (limit : Int) : List SourceRecord :=
  (pySliceTo p._records limit).map (toSourceRecord p._id)

/-- The search loop of `get_source_block` (`demo_app.py` lines 75-84):
return a block for the first record whose `job_id` matches, else `None`. -/
def findBlock (pid rid : String) : List RawRecord → Option SourceBlock
  | [] => none
  | r :: rest =>
      if r.job_id == rid then some (mkSourceBlock pid r)
      else findBlock pid rid rest

/-- `get_source_block` (`demo_app.py` lines 71-84). -/
def MockTranscriptionProvider.get_source_block (p : MockTranscriptionProvider)
    (rid : String) : Option SourceBlock :=
  findBlock p._id rid p._records

/-- State-passing embedding of `query_records`: the method assigns to no
attribute of `self`, so the post-state is the pre-state. -/
def MockTranscriptionProvider.query_records_run (p : MockTranscriptionProvider)
    (limit : Int) : List SourceRecord × MockTranscriptionProvider :=
  (p.query_records limit, p)

/-- State-passing embedding of `get_source_block`: the method assigns to no
attribute of `self`, so the post-state is the pre-state. -/
def MockTranscriptionProvider.get_source_block_run (p : MockTranscriptionProvider)
    (rid : String) : Option SourceBlock × MockTranscriptionProvider :=
  (p.get_source_block rid, p)

/-- Modelled from the spec: the external provider interface listed in the
spec (`provider_id`, `provider_name`, `is_available`, `query_records`,
`get_source_block`); its defining module `cjm_source_provider` is not
under src/, so the interface is taken as the record of those five total
operations. -/
structure SourceProviderInterface where
  provider_id : String
  provider_name : String
  is_available : Bool
  query_records : Int → List SourceRecord
  get_source_block : String → Option SourceBlock

/-- The mock provider packaged as an implementation of the interface. -/
def MockTranscriptionProvider.asProvider (p : MockTranscriptionProvider) :
    SourceProviderInterface :=
  { provider_id := p.provider_id
    provider_name := p.provider_name
    is_available := p.is_available
    query_records := p.query_records
    get_source_block := p.get_source_block }

/-- The default-constructed provider (all dataclass defaults, then
`__post_init__`) at construction time 0; used as a concrete instance. -/
def demoProvider : MockTranscriptionProvider :=
  MockTranscriptionProvider.post_init {} 0

/-! Helper lemmas shared by the claim theorems. -/

theorem findBlock_eq_none_iff (pid rid : String) (l : List RawRecord) :
    findBlock pid rid l = none ↔ ∀ r ∈ l, r.job_id ≠ rid := by
  induction l with
  | nil => simp [findBlock]
  | cons r rest ih =>
      by_cases h : r.job_id = rid
      · simp [findBlock, h]
      · simp [findBlock, h, ih]

theorem findBlock_eq_some (pid rid : String) (l : List RawRecord) (b : SourceBlock)
    (h : findBlock pid rid l = some b) :
    ∃ i, ∃ hi : i < l.length,
      (l.get ⟨i, hi⟩).job_id = rid
    ∧ b = mkSourceBlock pid (l.get ⟨i, hi⟩)
    ∧ ∀ j (hj : j < i), (l.get ⟨j, Nat.lt_trans hj hi⟩).job_id ≠ rid := by
  induction l with
  | nil => simp [findBlock] at h
  | cons r rest ih =>
      by_cases hr : r.job_id = rid
      · refine ⟨0, Nat.succ_pos _, ?_, ?_, ?_⟩
        · simpa using hr
        · have hb : some (mkSourceBlock pid r) = some b := by
            simpa [findBlock, hr] using h
          simpa using (Option.some.inj hb).symm
        · intro j hj
          exact absurd hj (Nat.not_lt_zero j)
      · have h' : findBlock pid rid rest = some b := by
          simpa [findBlock, hr] using h
        obtain ⟨i, hi, h1, h2, h3⟩ := ih h'
        refine ⟨i + 1, Nat.succ_lt_succ hi, ?_, ?_, ?_⟩
        · simpa using h1
        · simpa using h2
        · intro j hj
          cases j with
          | zero => simpa using hr
          | succ k =>
              have hk : k < i := Nat.lt_of_succ_lt_succ hj
              simpa using h3 k hk

theorem query_records_eq_take (p : MockTranscriptionProvider) (limit : Int)
    (h : 0 ≤ limit) :
    p.query_records limit
      = (p._records.take limit.toNat).map (toSourceRecord p._id) := by
  simp [MockTranscriptionProvider.query_records, pySliceTo, h]

theorem length_query_records (p : MockTranscriptionProvider) (limit : Int)
    (h : 0 ≤ limit) :
    (p.query_records limit).length = min limit.toNat p._records.length := by
  simp [MockTranscriptionProvider.query_records, pySliceTo, h, List.length_take]

/-! The claim theorems. -/

/-- C1: for every non-negative limit, `query_records limit` returns exactly
the first `min limit _records.length` stored records in stored order, each
converted with `record_id := job_id`, `media_path := audio_path` (default
`""`), `text` (default `""`), `metadata` (default `{}`), `created_at`
(default `""`) and `provider_id := _id`. -/
theorem query_records_spec (p : MockTranscriptionProvider) (limit : Int)
    (h : 0 ≤ limit) :
    p.query_records limit
      = (p._records.take limit.toNat).map (toSourceRecord p._id)
  ∧ (p.query_records limit).length = min limit.toNat p._records.length
  ∧ ∀ r : RawRecord,
      (toSourceRecord p._id r).record_id = r.job_id
    ∧ (toSourceRecord p._id r).media_path = r.audio_path.getD ""
    ∧ (toSourceRecord p._id r).text = r.text.getD ""
    ∧ (toSourceRecord p._id r).metadata = r.metadata.getD []
    ∧ (toSourceRecord p._id r).created_at = r.created_at.getD ""
    ∧ (toSourceRecord p._id r).provider_id = p._id := by
  refine ⟨query_records_eq_take p limit h, length_query_records p limit h, ?_⟩
  intro r
  exact ⟨rfl, rfl, rfl, rfl, rfl, rfl⟩

/-- Witness for C1: the theorem applied to the default demo provider with
limit 2. -/
theorem query_records_spec_witness :
    demoProvider.query_records 2
      = (demoProvider._records.take (Int.toNat 2)).map (toSourceRecord demoProvider._id) :=
  (query_records_spec demoProvider 2 (by decide)).1

/-- C2: `get_source_block rid` returns `none` exactly when no stored record
has `job_id = rid`, and any returned block is built (by `mkSourceBlock`,
with `id` the matching `job_id` and `provider_id` the provider id) from the
FIRST stored record whose `job_id` matches, every earlier record
mismatching. -/
theorem get_source_block_spec (p : MockTranscriptionProvider) (rid : String) :
    (p.get_source_block rid = none ↔ ∀ r ∈ p._records, r.job_id ≠ rid)
  ∧ ∀ b : SourceBlock, p.get_source_block rid = some b →
      ∃ i, ∃ hi : i < p._records.length,
        (p._records.get ⟨i, hi⟩).job_id = rid
      ∧ b = mkSourceBlock p._id (p._records.get ⟨i, hi⟩)
      ∧ ∀ j (hj : j < i), (p._records.get ⟨j, Nat.lt_trans hj hi⟩).job_id ≠ rid :=
  ⟨findBlock_eq_none_iff p._id rid p._records,
   fun b h => findBlock_eq_some p._id rid p._records b h⟩

/-- Witness for C2: on the demo provider with an unknown id the theorem's
first component yields `none`; the membership hypothesis is decided. -/
theorem get_source_block_spec_witness :
    demoProvider.get_source_block "job_demo_999" = none :=
  (get_source_block_spec demoProvider "job_demo_999").1.mpr (by decide)

/-- C3: `_generate_sample_data` returns five records with job ids
`job_demo_001` .. `job_demo_005`, and `__post_init__` installs that list on
a default-constructed provider (whose records list is empty). -/
theorem sample_data_spec (now : Int) :
    (MockTranscriptionProvider._generate_sample_data now).length = 5
  ∧ (MockTranscriptionProvider._generate_sample_data now).map RawRecord.job_id
      = ["job_demo_001", "job_demo_002", "job_demo_003", "job_demo_004", "job_demo_005"]
  ∧ (MockTranscriptionProvider.post_init {} now)._records
      = MockTranscriptionProvider._generate_sample_data now :=
  ⟨rfl, rfl, rfl⟩

/-- C4: the two accessors leave `_records` — and in fact the whole provider
state — unchanged: the post-state of each state-passing run equals the
pre-state. -/
theorem accessors_preserve_records (p : MockTranscriptionProvider)
    (limit : Int) (rid : String) :
    (p.query_records_run limit).2._records = p._records
  ∧ (p.query_records_run limit).2 = p
  ∧ (p.get_source_block_run rid).2._records = p._records
  ∧ (p.get_source_block_run rid).2 = p :=
  ⟨rfl, rfl, rfl, rfl⟩

/-- C5: determinism — running either accessor twice in sequence with the
same argument (the second call on the post-state of the first) returns
equal results. -/
theorem accessors_deterministic (p : MockTranscriptionProvider)
    (limit : Int) (rid : String) :
    ((p.query_records_run limit).2.query_records_run limit).1
      = (p.query_records_run limit).1
  ∧ ((p.get_source_block_run rid).2.get_source_block_run rid).1
      = (p.get_source_block_run rid).1 :=
  ⟨rfl, rfl⟩

/-- C6 counterexample: at limit `-1` on the default five-record provider,
`query_records` returns 4 records, so its length is NOT at most the limit. -/
theorem query_records_limit_counterexample :
    (demoProvider.query_records (-1)).length = 4
  ∧ ¬ (((demoProvider.query_records (-1)).length : Int) ≤ -1) := by
  exact ⟨by decide, by decide⟩

/-- C6 amended: for every NON-NEGATIVE limit, the list returned by
`query_records limit` has length at most `limit`. -/
theorem query_records_length_le_limit (p : MockTranscriptionProvider)
    (limit : Int) (h : 0 ≤ limit) :
    ((p.query_records limit).length : Int) ≤ limit := by
  have h1 := length_query_records p limit h
  have h2 : min limit.toNat p._records.length ≤ limit.toNat :=
    Nat.min_le_left _ _
  omega

/-- Witness for amended C6: the theorem applied at limit 3 on the demo
provider. -/
theorem query_records_length_le_limit_witness :
    ((demoProvider.query_records 3).length : Int) ≤ 3 :=
  query_records_length_le_limit demoProvider 3 (by decide)

/-- C7: the mock provider supplies all five operations of the provider
interface, each total: packaging any instance as a `SourceProviderInterface`
gives back exactly its five (everywhere-defined) operations. -/
theorem mock_satisfies_provider_interface (p : MockTranscriptionProvider) :
    p.asProvider.provider_id = p._id
  ∧ p.asProvider.provider_name = p._name
  ∧ p.asProvider.is_available = true
  ∧ (∀ limit : Int, p.asProvider.query_records limit = p.query_records limit)
  ∧ (∀ rid : String, p.asProvider.get_source_block rid = p.get_source_block rid) :=
  ⟨rfl, rfl, rfl, fun _ => rfl, fun _ => rfl⟩

/-- C8: after `__post_init__` the records list is never empty; it is the
generated samples when the constructor argument was empty and the original
list otherwise. -/
theorem post_init_records_nonempty (p : MockTranscriptionProvider) (now : Int) :
    (p.post_init now)._records ≠ []
  ∧ (p.post_init now)._records
      = (if p._records.isEmpty then
           MockTranscriptionProvider._generate_sample_data now
         else p._records) := by
  constructor
  · cases hrec : p._records with
    | nil => simp [MockTranscriptionProvider.post_init, hrec,
        MockTranscriptionProvider._generate_sample_data]
    | cons r rest => simp [MockTranscriptionProvider.post_init, hrec]
  · by_cases h : p._records.isEmpty
    · simp [MockTranscriptionProvider.post_init, h]
    · simp [MockTranscriptionProvider.post_init, h]

/-- Witness for C8: the default-constructed provider at time 0 ends up with
the generated sample records. -/
theorem post_init_records_nonempty_witness :
    (MockTranscriptionProvider.post_init {} 0)._records
      = MockTranscriptionProvider._generate_sample_data 0 := by
  simpa using (post_init_records_nonempty {} 0).2

/-- C9: for `0 < k < _records.length`, `query_records (-k)` returns the
first `_records.length - k` stored records (Python slice semantics), e.g.
4 of 5 on the default provider at `k = 1`. -/
theorem query_records_negative_limit (p : MockTranscriptionProvider) (k : Nat)
    (h1 : 0 < k) (h2 : k < p._records.length) :
    p.query_records (-(k : Int))
      = (p._records.take (p._records.length - k)).map (toSourceRecord p._id)
  ∧ (p.query_records (-(k : Int))).length = p._records.length - k := by
  have hneg : ¬ (0 ≤ -(k : Int)) := by omega
  have habs : (-(k : Int)).natAbs = k := by omega
  constructor
  · simp [MockTranscriptionProvider.query_records, pySliceTo, hneg, habs]
  · simp [MockTranscriptionProvider.query_records, pySliceTo, hneg, habs,
      List.length_take]

/-- Witness for C9: on the default five-record provider, `query_records (-1)`
has `5 - 1 = 4` records. -/
theorem query_records_negative_limit_witness :
    (demoProvider.query_records (-((1 : Nat) : Int))).length
      = demoProvider._records.length - 1
  ∧ (demoProvider.query_records (-((1 : Nat) : Int))).length = 4 :=
  ⟨(query_records_negative_limit demoProvider 1 (by decide) (by decide)).2,
   by decide⟩

/-- C10: `is_available` returns `true` on every instance, whatever its
records or other fields. -/
theorem is_available_always_true (p : MockTranscriptionProvider) :
    p.is_available = true := rfl
